import Mathlib

/-
Shallow embedding of the AistaiBot relay bot (src/bot.py): per-user session
store, model-code registry, callback router and the completion relay with
its 30-entry history window.  The completion API itself is external; it is
passed into the relay as a function returning an optional raw content
string (returning none models the call raising an exception).
-/

/-- Role tag of one conversation turn, as used in the message dicts built
at bot.py lines 193 and 215. -/
inductive Role where
  | user
  | assistant
deriving DecidableEq

/-- One conversation turn: a role tag and its text content. -/
structure Turn where
  role : Role
  content : String
deriving DecidableEq

/-- A per-user session record: the selected model code and the message
history, as created at bot.py lines 53-56. -/
structure Session where
  model : String
  messages : List Turn
deriving DecidableEq

/-- The process-wide session map `user_sessions` (bot.py line 48),
modelled as an association list keyed by user id (a Python dict keeps
insertion order and `get_user_session` only ever appends new keys). -/
abbrev Store := List (Nat × Session)

/-- Dict membership and read, `user_sessions[user_id]` (bot.py lines 52, 57). -/
def store_lookup : Store → Nat → Option Session
  | [], _ => none
  | (k, v) :: rest, user_id =>
      if k = user_id then some v else store_lookup rest user_id

/-- Dict write to an existing key: the Python handler mutates the session
record bound to `user_id` in place. -/
def store_update : Store → Nat → Session → Store
  | [], _, _ => []
  | (k, v) :: rest, user_id, s =>
      if k = user_id then (user_id, s) :: store_update rest user_id s
      else (k, v) :: store_update rest user_id s

/-- bot.py lines 51-57: return the session for `user_id`, creating a fresh
one (default model "gpt4o", empty history) on first contact.  Returns the
session together with the possibly-extended store. -/
def get_user_session (store : Store) (user_id : Nat) : Session × Store :=
  match store_lookup store user_id with
  | some s => (s, store)
  | none => (⟨"gpt4o", []⟩, store ++ [(user_id, ⟨"gpt4o", []⟩)])

/-- bot.py lines 60-68: map a user-facing model code to the OpenAI model
id, with "gpt-4o" as the fallback for anything unrecognized. -/
def map_model_code_to_openai_id (model_code : String) : String :=
  if model_code = "gpt5_instance" then "gpt-4o-mini"
  else if model_code = "gpt5_syncing" then "gpt-4.1"
  else if model_code = "gpt4o" then "gpt-4o"
  else "gpt-4o"

/-- Character-list core of Python str.startswith. -/
def chars_start_with : List Char → List Char → Bool
  | [], _ => true
  | _ :: _, [] => false
  | p :: ps, c :: cs => p = c && chars_start_with ps cs

/-- Python `data.startswith(pre)` (bot.py line 160). -/
def py_startswith (s pre : String) : Bool :=
  chars_start_with pre.data s.data

/-- Split a character list at the first colon, if any: the core of Python
`data.split(":", 1)` (bot.py line 161). -/
def split_once_colon : List Char → Option (List Char × List Char)
  | [] => none
  | c :: cs =>
      if c = ':' then some ([], cs)
      else (split_once_colon cs).map fun p => (c :: p.1, p.2)

/-- bot.py lines 117-178: the callback-query handler's effect on the
session store.  `data` is the raw callback payload (absent payloads read
as "" via `callback.data or ""`, line 120); message edits and callback
acknowledgements are outbound-only and carry no session state. -/
def handle_callbacks (store : Store) (user_id : Nat) (data : Option String) :
    Store :=
  let p := get_user_session store user_id
  let session := p.1
  let store1 := p.2
  let d := data.getD ""
  if d = "change_model" then store1
  else if d = "new_chat" then
    store_update store1 user_id { session with messages := [] }
  else if d = "about_bot" then store1
  else if d = "back_to_menu" then store1
  else if py_startswith d "set_model:" then
    match split_once_colon d.data with
    | some q => store_update store1 user_id { session with model := String.mk q.2 }
    | none => store1
  else store1

/-- bot.py line 196: the history window size. -/
def max_messages : Nat := 30

/-- bot.py lines 209-212: the fixed user-facing warning substituted for
the answer when the completion call raises. -/
def warning_text : String :=
  "⚠️ Произошла ошибка при обращении к модели.\nПроверь, что OpenAI API ключ и ID модели указаны верно."

/-- bot.py lines 193-198: append one turn to the history, then truncate to
the most recent `max_messages` entries (`messages[-30:]`) when the length
exceeds the cap. -/
def push_truncate (history : List Turn) (turn : Turn) : List Turn :=
  let h := history ++ [turn]
  if h.length > max_messages then h.drop (h.length - max_messages) else h

/-- Folding `push_truncate` over a list of turns: repeated runs of the
relay's append-then-truncate step. -/
def push_turns (history : List Turn) (turns : List Turn) : List Turn :=
  turns.foldl push_truncate history

/-- bot.py lines 189-215, the completion relay on one session: append the
user turn, truncate the window, call the completion API (already resolved
to the OpenAI model id), strip the answer or substitute `warning_text` on
failure, append the assistant turn.  Returns the updated session and the
text sent back to the user.  `api model_id msgs = none` models the call
raising an exception. -/
def respond (session : Session) (user_text : String)
    (api : String → List Turn → Option String) : Session × String :=
  let openai_model_id := map_model_code_to_openai_id session.model
  let msgs := push_truncate session.messages ⟨Role.user, user_text⟩
  let answer :=
    match api openai_model_id msgs with
    | some content => content.trim
    | none => warning_text
  ({ session with messages := msgs ++ [⟨Role.assistant, answer⟩] }, answer)

/-- bot.py lines 182-217: the free-text message handler.  `text` is
`message.text` (none models a non-text platform event); empty or absent
text returns at line 184 before any session is touched.  Returns the new
store and the reply sent, if any. -/
def handle_message (store : Store) (user_id : Nat) (text : Option String)
    (api : String → List Turn → Option String) : Store × Option String :=
  match text with
  | none => (store, none)
  | some t =>
      if t = "" then (store, none)
      else
        let p := get_user_session store user_id
        let q := respond p.1 t api
        (store_update p.2 user_id q.1, some q.2)

/-- Appending a binding for an absent key makes it found. -/
theorem store_lookup_append_of_none (store : Store) (user_id : Nat) (s : Session)
    (h : store_lookup store user_id = none) :
    store_lookup (store ++ [(user_id, s)]) user_id = some s := by
  induction store with
  | nil => simp [store_lookup]
  | cons p rest ih =>
      obtain ⟨k, v⟩ := p
      by_cases hk : k = user_id
      · simp [store_lookup, hk] at h
      · simp only [List.cons_append, store_lookup, if_neg hk] at h ⊢
        exact ih h

/-- Appending bindings never disturbs an existing binding. -/
theorem store_lookup_append_of_some (store l : Store) (u : Nat) (s : Session)
    (h : store_lookup store u = some s) :
    store_lookup (store ++ l) u = some s := by
  induction store with
  | nil => simp [store_lookup] at h
  | cons p rest ih =>
      obtain ⟨k, v⟩ := p
      by_cases hk : k = u
      · simp only [List.cons_append, store_lookup, if_pos hk] at h ⊢
        exact h
      · simp only [List.cons_append, store_lookup, if_neg hk] at h ⊢
        exact ih h

/-- Updating a present key makes the lookup return the new session. -/
theorem store_lookup_update_self (store : Store) (u : Nat) (v : Session)
    (h : (store_lookup store u).isSome) :
    store_lookup (store_update store u v) u = some v := by
  induction store with
  | nil => simp [store_lookup] at h
  | cons p rest ih =>
      obtain ⟨k, w⟩ := p
      by_cases hk : k = u
      · simp [store_lookup, store_update, hk]
      · simp only [store_lookup, store_update, if_neg hk] at h ⊢
        exact ih h

/-- After get_user_session, the user's session is in the returned store. -/
theorem get_user_session_lookup (store : Store) (user_id : Nat) :
    store_lookup (get_user_session store user_id).2 user_id =
      some (get_user_session store user_id).1 := by
  unfold get_user_session
  cases h : store_lookup store user_id with
  | some s => simpa using h
  | none => simp [store_lookup_append_of_none store user_id _ h]

/-- get_user_session never disturbs an existing binding of any user. -/
theorem get_user_session_preserves (store : Store) (user_id u : Nat) (s : Session)
    (h : store_lookup store u = some s) :
    store_lookup (get_user_session store user_id).2 u = some s := by
  unfold get_user_session
  cases hl : store_lookup store user_id with
  | some t => simpa using h
  | none => simp [store_lookup_append_of_some store _ u s h]

/-- A second get_user_session call for the same user returns the same
session-store pair. -/
theorem get_user_session_stable (store : Store) (user_id : Nat) :
    get_user_session (get_user_session store user_id).2 user_id =
      get_user_session store user_id := by
  have h := get_user_session_lookup store user_id
  rcases hp : get_user_session store user_id with ⟨s, st⟩
  rw [hp] at h
  simp only at h
  show get_user_session st user_id = (s, st)
  unfold get_user_session
  rw [h]

/-- C4: for every user identifier, get_user_session is idempotent: a second
call returns the same session and the same store (so it never resets an
existing session's history or model code), and the session is created on
the first call only (an existing binding is returned untouched). -/
theorem get_user_session_idempotent (store : Store) (user_id : Nat) :
    get_user_session (get_user_session store user_id).2 user_id =
        get_user_session store user_id ∧
    (store_lookup store user_id = none →
      (get_user_session store user_id).2 =
        store ++ [(user_id, ⟨"gpt4o", []⟩)]) ∧
    (∀ s, store_lookup store user_id = some s →
      get_user_session store user_id = (s, store)) := by
  refine ⟨get_user_session_stable store user_id, ?_, ?_⟩
  · intro h
    unfold get_user_session
    rw [h]
  · intro s hs
    unfold get_user_session
    rw [hs]

/-- Witness for C4 at concrete stores: first contact appends a fresh
default session; a repeated contact returns the stored session and leaves
the store unchanged. -/
theorem get_user_session_idempotent_witness :
    (get_user_session [] 1).2 = [] ++ [(1, ⟨"gpt4o", []⟩)] ∧
    get_user_session [(1, ⟨"m", []⟩)] 1 = (⟨"m", []⟩, [(1, ⟨"m", []⟩)]) :=
  ⟨(get_user_session_idempotent [] 1).2.1 rfl,
   (get_user_session_idempotent [(1, ⟨"m", []⟩)] 1).2.2 ⟨"m", []⟩ rfl⟩

/-- C5: handling the new_chat callback empties the session's history and
leaves its model code unchanged. -/
theorem new_chat_clears_history_keeps_model (store : Store) (user_id : Nat) :
    store_lookup (handle_callbacks store user_id (some "new_chat")) user_id =
      some ⟨(get_user_session store user_id).1.model, []⟩ := by
  have hred : handle_callbacks store user_id (some "new_chat") =
      store_update (get_user_session store user_id).2 user_id
        { (get_user_session store user_id).1 with messages := [] } := rfl
  rw [hred]
  exact store_lookup_update_self _ _ _
    (by rw [get_user_session_lookup]; rfl)

/-- C8: a free-text event with absent or empty text is ignored: no reply
is sent and the store is returned untouched, so no session is created. -/
theorem empty_text_ignored (store : Store) (user_id : Nat)
    (api : String → List Turn → Option String) :
    handle_message store user_id none api = (store, none) ∧
    handle_message store user_id (some "") api = (store, none) :=
  ⟨rfl, rfl⟩

/-- C6: the recognized model codes resolve to their OpenAI ids, every
other string resolves to the default id (the map is a total function),
and set_model stores the payload's code without validation: after
set_model:gpt5_instance then set_model:bogus the session's model is the
literal string "bogus". -/
theorem model_resolution_total_and_no_validation :
    map_model_code_to_openai_id "gpt5_instance" = "gpt-4o-mini" ∧
    map_model_code_to_openai_id "gpt5_syncing" = "gpt-4.1" ∧
    map_model_code_to_openai_id "gpt4o" = "gpt-4o" ∧
    (∀ code : String, code ≠ "gpt5_instance" → code ≠ "gpt5_syncing" →
      code ≠ "gpt4o" → map_model_code_to_openai_id code = "gpt-4o") ∧
    store_lookup
        (handle_callbacks
          (handle_callbacks [] 1 (some "set_model:gpt5_instance"))
          1 (some "set_model:bogus")) 1 = some ⟨"bogus", []⟩ := by
  refine ⟨by decide, by decide, by decide, ?_, by decide⟩
  intro code h1 h2 h3
  simp [map_model_code_to_openai_id, h1, h2, h3]

/-- Witness for C6: the unrecognized code "bogus" resolves to the default
OpenAI id. -/
theorem model_resolution_total_and_no_validation_witness :
    map_model_code_to_openai_id "bogus" = "gpt-4o" :=
  model_resolution_total_and_no_validation.2.2.2.1 "bogus"
    (by decide) (by decide) (by decide)

/-- C10: a set_model payload is split at its first colon only, so handling
set_model:<rest> stores the whole remainder <rest> (further colons and the
empty string included) as the session's model, leaving its history as
gotten from the store. -/
theorem set_model_splits_on_first_colon (store : Store) (user_id : Nat)
    (rest : String) :
    store_lookup
        (handle_callbacks store user_id (some ("set_model:" ++ rest)))
        user_id =
      some ⟨rest, (get_user_session store user_id).1.messages⟩ := by
  have hred : handle_callbacks store user_id (some ("set_model:" ++ rest)) =
      store_update (get_user_session store user_id).2 user_id
        { (get_user_session store user_id).1 with model := rest } := rfl
  rw [hred]
  exact store_lookup_update_self _ _ _
    (by rw [get_user_session_lookup]; rfl)

/-- Unfolding push_truncate with the appended length made explicit. -/
theorem push_truncate_eq (history : List Turn) (turn : Turn) :
    push_truncate history turn =
      if history.length + 1 > max_messages then
        (history ++ [turn]).drop (history.length + 1 - max_messages)
      else history ++ [turn] := by
  simp [push_truncate]

/-- The window step leaves min (n + 1) 30 entries. -/
theorem push_truncate_length (history : List Turn) (turn : Turn) :
    (push_truncate history turn).length =
      min (history.length + 1) max_messages := by
  rw [push_truncate_eq]
  by_cases h : history.length + 1 > max_messages
  · rw [if_pos h]
    simp only [List.length_drop, List.length_append, List.length_singleton]
    unfold max_messages at h ⊢
    omega
  · rw [if_neg h]
    simp only [List.length_append, List.length_singleton]
    unfold max_messages at h ⊢
    omega

/-- The window step keeps a suffix of the appended history: the most
recent entries, in their original relative order. -/
theorem push_truncate_suffix (history : List Turn) (turn : Turn) :
    push_truncate history turn <:+ history ++ [turn] := by
  rw [push_truncate_eq]
  by_cases h : history.length + 1 > max_messages
  · rw [if_pos h]
    exact List.drop_suffix _ _
  · rw [if_neg h]

/-- C3: on a fresh session, when the completion call for "hello" fails,
respond returns the fixed warning string instead of propagating the
failure, and the history afterwards is exactly the user turn "hello"
followed by the assistant turn carrying the warning text. -/
theorem respond_failure_substitutes_warning
    (api : String → List Turn → Option String)
    (hfail : api "gpt-4o" [⟨Role.user, "hello"⟩] = none) :
    respond ⟨"gpt4o", []⟩ "hello" api =
      (⟨"gpt4o", [⟨Role.user, "hello"⟩, ⟨Role.assistant, warning_text⟩]⟩,
        warning_text) := by
  have h1 : respond ⟨"gpt4o", []⟩ "hello" api =
      (⟨"gpt4o", [⟨Role.user, "hello"⟩, ⟨Role.assistant,
          match api "gpt-4o" [⟨Role.user, "hello"⟩] with
          | some content => content.trim
          | none => warning_text⟩]⟩,
        match api "gpt-4o" [⟨Role.user, "hello"⟩] with
        | some content => content.trim
        | none => warning_text) := rfl
  rw [h1, hfail]

/-- Witness for C3: an api that always fails produces the warning turn. -/
theorem respond_failure_substitutes_warning_witness :
    respond ⟨"gpt4o", []⟩ "hello" (fun _ _ => none) =
      (⟨"gpt4o", [⟨Role.user, "hello"⟩, ⟨Role.assistant, warning_text⟩]⟩,
        warning_text) :=
  respond_failure_substitutes_warning (fun _ _ => none) rfl

/-- The window step always equals a drop of the appended history (the
drop count is zero while the window is not full). -/
theorem push_truncate_eq_drop (history : List Turn) (turn : Turn) :
    push_truncate history turn =
      (history ++ [turn]).drop (history.length + 1 - max_messages) := by
  rw [push_truncate_eq]
  by_cases h : history.length + 1 > max_messages
  · rw [if_pos h]
  · rw [if_neg h]
    have h0 : history.length + 1 - max_messages = 0 := by omega
    rw [h0, List.drop_zero]

/-- Pushing any list of turns onto a history inside the window keeps
exactly the most recent max_messages entries of the concatenation. -/
theorem push_turns_window (ts : List Turn) (h : List Turn)
    (hh : h.length ≤ max_messages) :
    push_turns h ts =
      (h ++ ts).drop (h.length + ts.length - max_messages) := by
  induction ts generalizing h with
  | nil =>
      have h0 : h.length + List.length ([] : List Turn) - max_messages = 0 := by
        simp only [List.length_nil]
        omega
      rw [h0, List.drop_zero, List.append_nil]
      rfl
  | cons t ts ih =>
      have hpt : (push_truncate h t).length ≤ max_messages := by
        rw [push_truncate_length]
        exact Nat.min_le_right _ _
      have step : push_turns h (t :: ts) = push_turns (push_truncate h t) ts := rfl
      have hle : h.length + 1 - max_messages ≤ (h ++ [t]).length := by
        simp only [List.length_append, List.length_singleton]
        omega
      rw [step, ih _ hpt, push_truncate_length, push_truncate_eq_drop,
        ← List.drop_append_of_le_length hle, List.drop_drop,
        List.append_assoc, List.singleton_append]
      have harith : h.length + 1 - max_messages +
            (min (h.length + 1) max_messages + ts.length - max_messages) =
          h.length + (t :: ts).length - max_messages := by
        simp only [List.length_cons]
        unfold max_messages
        omega
      rw [harith]

/-- C2: pushing 35 user turns through the append-then-truncate step onto a
fresh history leaves exactly the last 30 of them, in push order, and
pushing no turns leaves any history unchanged. -/
theorem window_push_35_then_0 (f : Nat → String) (history : List Turn) :
    push_turns [] ((List.range 35).map fun i => ⟨Role.user, f i⟩) =
      ((List.range 35).map fun i => (⟨Role.user, f i⟩ : Turn)).drop 5 ∧
    push_turns history [] = history := by
  constructor
  · rw [push_turns_window _ _ (by simp [max_messages])]
    simp [max_messages]
  · rfl

/-- C1 counterexample: on a session whose history already holds 30 turns,
one respond call leaves 31 entries, so the history is not capped at 30
after every operation. -/
theorem history_exceeds_30_after_respond :
    ¬ ((respond ⟨"gpt4o", List.replicate 30 ⟨Role.user, "x"⟩⟩ "y"
          (fun _ _ => none)).1.messages.length ≤ 30) := by decide

/-- C1 (amended): after every respond call the history length is at most
31: the cap to the most recent 30 entries (oldest discarded, original
relative order kept, witnessed by the pre-assistant part being a suffix of
the user-appended history of size min (n + 1) 30) is applied after the
user turn is appended, and the assistant turn appended afterwards can
bring the total to 31. -/
theorem history_window_after_respond (s : Session) (t : String)
    (api : String → List Turn → Option String) :
    (respond s t api).1.messages.length ≤ 31 ∧
    ∃ window answer,
      (respond s t api).1.messages = window ++ [⟨Role.assistant, answer⟩] ∧
      window.length = min (s.messages.length + 1) 30 ∧
      window <:+ s.messages ++ [⟨Role.user, t⟩] := by
  have hmsg : (respond s t api).1.messages =
      push_truncate s.messages ⟨Role.user, t⟩ ++
        [⟨Role.assistant, (respond s t api).2⟩] := rfl
  constructor
  · rw [hmsg]
    simp only [List.length_append, List.length_singleton, push_truncate_length]
    unfold max_messages
    omega
  · refine ⟨push_truncate s.messages ⟨Role.user, t⟩, (respond s t api).2,
      hmsg, ?_, push_truncate_suffix _ _⟩
    rw [push_truncate_length]
    rfl

/-- C9: one message-handler invocation leaves at most 31 history entries,
because the truncation to 30 runs between the user-turn append and the
assistant-turn append; from any starting history of at least 30 entries it
leaves exactly 31. -/
theorem history_at_most_31_and_exactly_31 (s : Session) (t : String)
    (api : String → List Turn → Option String) :
    (respond s t api).1.messages.length ≤ 31 ∧
    (30 ≤ s.messages.length →
      (respond s t api).1.messages.length = 31) := by
  have hmsg : (respond s t api).1.messages =
      push_truncate s.messages ⟨Role.user, t⟩ ++
        [⟨Role.assistant, (respond s t api).2⟩] := rfl
  rw [hmsg]
  simp only [List.length_append, List.length_singleton, push_truncate_length]
  unfold max_messages
  constructor
  · omega
  · intro h
    omega

/-- Witness for C9: a 30-entry history grows to exactly 31 entries. -/
theorem history_at_most_31_and_exactly_31_witness :
    (respond ⟨"gpt4o", List.replicate 30 ⟨Role.user, "a"⟩⟩ "b"
        (fun _ _ => none)).1.messages.length = 31 :=
  (history_at_most_31_and_exactly_31
      ⟨"gpt4o", List.replicate 30 ⟨Role.user, "a"⟩⟩ "b"
      (fun _ _ => none)).2 (by decide)

/-- C7 counterexample: an unrecognized callback payload from a user with
no session does change the session store, because the handler's initial
get_user_session lazily creates a default session for the sender. -/
theorem unknown_callback_changes_empty_store :
    handle_callbacks [] 1 (some "zzz") ≠ ([] : Store) := by decide

/-- C7 (amended): for a payload that matches none of the five recognized
forms, handling changes the store only by the handler's initial lazy
get_user_session (which creates a default session when the sender has
none); in particular every session present beforehand keeps its history
and model code. -/
theorem unknown_callback_only_lazy_creation (store : Store) (user_id : Nat)
    (d : String) (h1 : d ≠ "change_model") (h2 : d ≠ "new_chat")
    (h3 : d ≠ "about_bot") (h4 : d ≠ "back_to_menu")
    (h5 : py_startswith d "set_model:" = false) :
    handle_callbacks store user_id (some d) =
        (get_user_session store user_id).2 ∧
    ∀ u s, store_lookup store u = some s →
      store_lookup (handle_callbacks store user_id (some d)) u = some s := by
  have hred : handle_callbacks store user_id (some d) =
      (get_user_session store user_id).2 := by
    unfold handle_callbacks
    simp [h1, h2, h3, h4, h5]
  refine ⟨hred, fun u s hs => ?_⟩
  rw [hred]
  exact get_user_session_preserves store user_id u s hs

/-- Witness for C7 (amended): the payload "hello" from user 1 leaves the
store exactly as the lazy session creation does. -/
theorem unknown_callback_only_lazy_creation_witness :
    handle_callbacks [(2, ⟨"gpt4o", []⟩)] 1 (some "hello") =
      (get_user_session [(2, ⟨"gpt4o", []⟩)] 1).2 :=
  (unknown_callback_only_lazy_creation [(2, ⟨"gpt4o", []⟩)] 1 "hello"
    (by decide) (by decide) (by decide) (by decide) (by decide)).1
